import Mathlib

/-
Verification of the GitHub-Crawler repository (github_crawler.py and
github_to_postgres.py) against its natural-language specification.

The Python sources are shallowly embedded below: pure computations become
Lean functions, the nested retry / page / partition loops become fueled or
structurally recursive functions over an explicit stream of simulated
request outcomes, and the PostgreSQL table becomes a finite map from the
natural key (owner_name, repo_name) to the non-key columns.  Timestamps and
the wall clock are integers.
-/

/-
Section 1: data model of a harvested record and of the repositories table.
-/

/-- One harvested repository record as parsed from the GraphQL response:
owner login, repository name, stargazer count and the optional createdAt
timestamp (github_to_postgres.py never reads createdAt; its records simply
carry none). -/
structure Repo where
  owner : String
  name : String
  stars : Int
  createdAt : Option Int
  deriving DecidableEq

/-- The natural key (owner_name, repo_name) of the repositories table,
declared UNIQUE in store_in_postgres's CREATE TABLE. -/
abbrev RepoKey := String × String

def repoKey (r : Repo) : RepoKey := (r.owner, r.name)

/-- The non-key columns of one row of the repositories table: stars,
created_at (nullable) and last_updated. -/
structure RowData where
  stars : Int
  created_at : Option Int
  last_updated : Int
  deriving DecidableEq

/-- The repositories table, as the finite map induced by its UNIQUE
(owner_name, repo_name) constraint: each key holds at most one row. -/
def Table : Type := RepoKey → Option RowData

/-- The row written for record r: on conflict (existing row present) the SQL
DO UPDATE sets stars = EXCLUDED.stars and last_updated = CURRENT_TIMESTAMP,
keeping created_at (and the key) of the existing row; on a fresh INSERT the
created_at column receives insCreated r (the VALUES clause of
github_crawler.py supplies the record's createdAt; the one of
github_to_postgres.py omits the column, leaving it NULL). -/
def updateVal (insCreated : Repo → Option Int) (v : Option RowData) (r : Repo) (now : Int) :
    RowData :=
  match v with
  | some row => ⟨r.stars, row.created_at, now⟩
  | none => ⟨r.stars, insCreated r, now⟩

/-- One INSERT ... ON CONFLICT (owner_name, repo_name) DO UPDATE statement. -/
def upsertOneWith (insCreated : Repo → Option Int) (t : Table) (r : Repo) (now : Int) :
    Table :=
  fun k => if k = repoKey r then some (updateVal insCreated (t (repoKey r)) r now) else t k

/-- The cursor loop of both store functions: one upsert statement per record,
in list order. -/
def upsertWith (insCreated : Repo → Option Int) (t : Table) (rs : List Repo) (now : Int) :
    Table :=
  rs.foldl (fun acc r => upsertOneWith insCreated acc r now) t

/-- Effect on the table of store_in_postgres from github_crawler.py
(INSERT lists owner_name, repo_name, stars, created_at). -/
def store_in_postgres (t : Table) (rs : List Repo) (now : Int) : Table :=
  upsertWith (fun r => r.createdAt) t rs now

/-- Effect on the table of save_to_postgres from github_to_postgres.py
(INSERT lists owner_name, repo_name, stars only; created_at stays NULL on
insert). -/
def save_to_postgres (t : Table) (rs : List Repo) (now : Int) : Table :=
  upsertWith (fun _ => none) t rs now

/-- Forget the last_updated column of one optional row. -/
def stripLU (v : Option RowData) : Option (Int × Option Int) :=
  v.map (fun row => (row.stars, row.created_at))

/-- Forget the last_updated column of every row of the table. -/
def eraseLU (t : Table) : RepoKey → Option (Int × Option Int) :=
  fun k => stripLU (t k)

/-
Per-key view of the batch upsert: since each statement touches only its own
key, the value at key k after a batch is a fold over the records of the
batch whose key is k.
-/

/-- Fold of successive upsert statements over one key's value. -/
def keyFold (insCreated : Repo → Option Int) (now : Int) (v : Option RowData)
    (l : List Repo) : Option RowData :=
  l.foldl (fun acc r => some (updateVal insCreated acc r now)) v

theorem upsertWith_apply (ic : Repo → Option Int) (t : Table) (rs : List Repo)
    (now : Int) (k : RepoKey) :
    upsertWith ic t rs now k =
      keyFold ic now (t k) (rs.filter (fun r => decide (repoKey r = k))) := by
  induction rs generalizing t with
  | nil => rfl
  | cons r rs ih =>
    show upsertWith ic (upsertOneWith ic t r now) rs now k = _
    rw [ih]
    by_cases h : repoKey r = k
    · have h1 : (upsertOneWith ic t r now) k = some (updateVal ic (t k) r now) := by
        simp [upsertOneWith, h]
      rw [h1]
      simp [List.filter_cons, h, keyFold]
    · have h1 : (upsertOneWith ic t r now) k = t k := by
        simp only [upsertOneWith]
        rw [if_neg]
        intro hk
        exact h hk.symm
      rw [h1]
      simp [List.filter_cons, h]

/-- A fold starting from an existing row yields a row with the same
created_at: conflicts never rewrite created_at. -/
theorem keyFold_some (ic : Repo → Option Int) (now : Int) (l : List Repo) :
    ∀ row : RowData, ∃ row2 : RowData,
      keyFold ic now (some row) l = some row2 ∧ row2.created_at = row.created_at := by
  induction l with
  | nil => intro row; exact ⟨row, rfl, rfl⟩
  | cons r l ih =>
    intro row
    obtain ⟨row2, h1, h2⟩ := ih ⟨r.stars, row.created_at, now⟩
    exact ⟨row2, h1, h2⟩

/-- The stars and created_at columns produced by a fold depend on the initial
value only through its stars and created_at columns. -/
theorem keyFold_congr (ic : Repo → Option Int) (l : List Repo) :
    ∀ (v v2 : Option RowData) (n n2 : Int), stripLU v = stripLU v2 →
      stripLU (keyFold ic n v l) = stripLU (keyFold ic n2 v2 l) := by
  induction l with
  | nil => intro v v2 n n2 h; exact h
  | cons r l ih =>
    intro v v2 n n2 h
    show stripLU (keyFold ic n (some (updateVal ic v r n)) l) =
      stripLU (keyFold ic n2 (some (updateVal ic v2 r n2)) l)
    apply ih
    cases v with
    | none =>
      cases v2 with
      | none => rfl
      | some row2 => simp [stripLU] at h
    | some row =>
      cases v2 with
      | none => simp [stripLU] at h
      | some row2 =>
        simp only [stripLU, Option.map_some', Option.some.injEq, Prod.mk.injEq] at h
        simp [stripLU, updateVal, h.2]

/-- Replaying the same per-key record sequence is invisible up to
last_updated. -/
theorem keyFold_idem (ic : Repo → Option Int) (l : List Repo) :
    ∀ (v : Option RowData) (n1 n2 : Int),
      stripLU (keyFold ic n2 (keyFold ic n1 v l) l) = stripLU (keyFold ic n1 v l) := by
  induction l with
  | nil => intro v n1 n2; rfl
  | cons r l ih =>
    intro v n1 n2
    show stripLU (keyFold ic n2 (some (updateVal ic (keyFold ic n1 (some (updateVal ic v r n1)) l) r n2)) l) =
      stripLU (keyFold ic n1 (some (updateVal ic v r n1)) l)
    cases l with
    | nil =>
      cases v <;> simp [keyFold, updateVal, stripLU]
    | cons r2 l2 =>
      -- the first-pass result at this key is some row, with a known created_at
      obtain ⟨rowB, hB, hBc⟩ := keyFold_some ic n1 (r2 :: l2) (updateVal ic v r n1)
      have hstep : stripLU (keyFold ic n2 (some (updateVal ic (keyFold ic n1 (some (updateVal ic v r n1)) (r2 :: l2)) r n2)) (r2 :: l2)) =
          stripLU (keyFold ic n2 (keyFold ic n1 (some (updateVal ic v r n1)) (r2 :: l2)) (r2 :: l2)) := by
        show stripLU (keyFold ic n2 (some (updateVal ic (some (updateVal ic (keyFold ic n1 (some (updateVal ic v r n1)) (r2 :: l2)) r n2)) r2 n2)) l2) =
          stripLU (keyFold ic n2 (some (updateVal ic (keyFold ic n1 (some (updateVal ic v r n1)) (r2 :: l2)) r2 n2)) l2)
        apply keyFold_congr
        rw [hB]
        simp [updateVal, stripLU]
      rw [hstep]
      exact ih (some (updateVal ic v r n1)) n1 n2

/-- Batch upsert is idempotent up to last_updated. -/
theorem upsertWith_idem (ic : Repo → Option Int) (t : Table) (rs : List Repo)
    (n1 n2 : Int) :
    eraseLU (upsertWith ic (upsertWith ic t rs n1) rs n2) = eraseLU (upsertWith ic t rs n1) := by
  funext k
  show stripLU (upsertWith ic (upsertWith ic t rs n1) rs n2 k) =
    stripLU (upsertWith ic t rs n1 k)
  simp only [upsertWith_apply]
  exact keyFold_idem ic _ (t k) n1 n2

/-
Section 2: transactional execution of a store batch (claim C6).

psycopg2 opens connections with autocommit off: every cur.execute joins the
current transaction and only conn.commit() makes its effects visible.  Both
store functions run one INSERT per record and a single commit after the
loop, so the batch is one transaction.  A crash at any point makes exactly
the visible snapshot survive.
-/

/-- Database state: the committed snapshot (what a concurrent reader, or a
restart after a crash, sees) and the working state of the open transaction. -/
structure Db where
  visible : Table
  current : Table

/-- The statements issued by a store call: one upsert per record, then the
single commit. -/
inductive Stmt where
  | upsertRepo (r : Repo)
  | commitTxn

/-- The statement list executed by one store call on a batch. -/
def storeStmts (rs : List Repo) : List Stmt :=
  rs.map Stmt.upsertRepo ++ [Stmt.commitTxn]

/-- Effect of one statement: an upsert mutates only the open transaction;
commit publishes it. -/
def execStmt (ic : Repo → Option Int) (now : Int) (db : Db) : Stmt → Db
  | Stmt.upsertRepo r => ⟨db.visible, upsertOneWith ic db.current r now⟩
  | Stmt.commitTxn => ⟨db.current, db.current⟩

def execStmts (ic : Repo → Option Int) (now : Int) (db : Db) (l : List Stmt) : Db :=
  l.foldl (execStmt ic now) db

/-- Running only upsert statements never changes the visible snapshot, and
folds the upserts into the open transaction. -/
theorem execStmts_upserts (ic : Repo → Option Int) (now : Int) (rs : List Repo) :
    ∀ db : Db, execStmts ic now db (rs.map Stmt.upsertRepo) =
      ⟨db.visible, upsertWith ic db.current rs now⟩ := by
  induction rs with
  | nil => intro db; rfl
  | cons r rs ih =>
    intro db
    show execStmts ic now ⟨db.visible, upsertOneWith ic db.current r now⟩ (rs.map Stmt.upsertRepo) = _
    rw [ih]
    rfl

/-
Section 3: partition planning (claim C7).

fetch_repositories in github_crawler.py generates date windows with
  start_date = datetime(2014, 1, 1), end_date = datetime(2024, 12, 31),
  delta = timedelta(days = 30),
  while current < end_date: append "created:{current}..{current+delta}"
Dates are embedded as proleptic-Gregorian day ordinals (Python's
date.toordinal), so a window is the pair of ordinals of its two printed
dates.
-/

def isLeap (y : Nat) : Bool :=
  (y % 4 == 0 && y % 100 != 0) || y % 400 == 0

def monthDays (y m : Nat) : Nat :=
  if m = 2 then (if isLeap y then 29 else 28)
  else if m = 4 ∨ m = 6 ∨ m = 9 ∨ m = 11 then 30
  else 31

def daysBeforeYear (y : Nat) : Nat :=
  365 * (y - 1) + (y - 1) / 4 - (y - 1) / 100 + (y - 1) / 400

def daysBeforeMonth (y m : Nat) : Nat :=
  (List.range (m - 1)).foldl (fun acc i => acc + monthDays y (i + 1)) 0

/-- Day ordinal of a calendar date, as in Python's date.toordinal
(0001-01-01 is day 1). -/
def toOrdinal (y m d : Nat) : Nat :=
  daysBeforeYear y + daysBeforeMonth y m + d

/-- The while loop generating the date windows, with explicit fuel: while
current < e, emit the window (current, current + delta) and advance by
delta.  With delta positive, fuel e - c suffices for the loop to run to
completion. -/
def dateRangesGo (e delta : Nat) : Nat → Nat → List (Nat × Nat)
  | 0, _ => []
  | fuel + 1, c =>
    if c < e then (c, c + delta) :: dateRangesGo e delta fuel (c + delta) else []

def dateRanges (c e delta : Nat) : List (Nat × Nat) :=
  dateRangesGo e delta (e - c) c

/-- The concrete window list generated by fetch_repositories. -/
def crawlerDateRanges : List (Nat × Nat) :=
  dateRanges (toOrdinal 2014 1 1) (toOrdinal 2024 12 31) 30

/-- A creation date d is matched by the emitted search qualifier
"created:A..B": GitHub's two-dot range syntax is inclusive at both ends. -/
def matchesRange (r : Nat × Nat) (d : Nat) : Bool :=
  decide (r.1 ≤ d) && decide (d ≤ r.2)

theorem dateRangesGo_width (e delta fuel c : Nat) :
    ∀ r ∈ dateRangesGo e delta fuel c, r.2 = r.1 + delta := by
  induction fuel generalizing c with
  | zero => intro r h; simp [dateRangesGo] at h
  | succ f ih =>
    intro r h
    simp only [dateRangesGo] at h
    by_cases hc : c < e
    · rw [if_pos hc] at h
      rcases List.mem_cons.mp h with h1 | h2
      · rw [h1]
      · exact ih (c + delta) r h2
    · rw [if_neg hc] at h; simp at h

theorem dateRangesGo_lb (e delta fuel c : Nat) :
    ∀ r ∈ dateRangesGo e delta fuel c, c ≤ r.1 := by
  induction fuel generalizing c with
  | zero => intro r h; simp [dateRangesGo] at h
  | succ f ih =>
    intro r h
    simp only [dateRangesGo] at h
    by_cases hc : c < e
    · rw [if_pos hc] at h
      rcases List.mem_cons.mp h with h1 | h2
      · rw [h1]
      · exact Nat.le_trans (Nat.le_add_right c delta) (ih (c + delta) r h2)
    · rw [if_neg hc] at h; simp at h

/-- Either no window is generated, or the first one starts exactly at c. -/
theorem dateRangesGo_head (e delta fuel c : Nat) :
    dateRangesGo e delta fuel c = [] ∨
      ∃ rest, dateRangesGo e delta fuel c = (c, c + delta) :: rest := by
  cases fuel with
  | zero => exact Or.inl rfl
  | succ f =>
    by_cases hc : c < e
    · exact Or.inr ⟨dateRangesGo e delta f (c + delta), by simp [dateRangesGo, hc]⟩
    · exact Or.inl (by simp [dateRangesGo, hc])

/-- Consecutive windows meet exactly: each window starts where the previous
one ends. -/
theorem dateRangesGo_chain (e delta fuel c : Nat) :
    List.Chain' (fun r s => s.1 = r.2) (dateRangesGo e delta fuel c) := by
  induction fuel generalizing c with
  | zero => simp [dateRangesGo]
  | succ f ih =>
    simp only [dateRangesGo]
    by_cases hc : c < e
    · rw [if_pos hc]
      rcases dateRangesGo_head e delta f (c + delta) with h1 | ⟨rest, h2⟩
      · rw [h1]; simp
      · rw [h2]
        refine List.Chain'.cons rfl ?_
        rw [← h2]
        exact ih (c + delta)
    · rw [if_neg hc]; simp

/-- Windows are emitted oldest first: start ordinals strictly increase. -/
theorem dateRangesGo_sorted (e delta fuel c : Nat) (hd : 0 < delta) :
    (dateRangesGo e delta fuel c).Pairwise (fun r s => r.1 < s.1) := by
  induction fuel generalizing c with
  | zero => simp [dateRangesGo]
  | succ f ih =>
    simp only [dateRangesGo]
    by_cases hc : c < e
    · rw [if_pos hc]
      refine List.Pairwise.cons ?_ (ih (c + delta))
      intro s hs
      have := dateRangesGo_lb e delta f (c + delta) s hs
      omega
    · rw [if_neg hc]; simp

/-- With enough fuel, every day of the half-open configured span lies in at
least one window (left end inclusive, right end exclusive). -/
theorem dateRangesGo_cover (e delta : Nat) (hd : 0 < delta) :
    ∀ (fuel c x : Nat), c ≤ x → x < e → e ≤ c + fuel →
      ∃ r, r ∈ dateRangesGo e delta fuel c ∧ r.1 ≤ x ∧ x < r.2 := by
  intro fuel
  induction fuel with
  | zero => intro c x h1 h2 h3; omega
  | succ f ih =>
    intro c x h1 h2 h3
    have hc : c < e := Nat.lt_of_le_of_lt h1 h2
    by_cases hx : x < c + delta
    · exact ⟨(c, c + delta), by simp [dateRangesGo, hc], h1, hx⟩
    · have hx2 : c + delta ≤ x := Nat.le_of_not_lt hx
      obtain ⟨r, hr1, hr2, hr3⟩ := ih (c + delta) x hx2 h2 (by omega)
      exact ⟨r, by simp [dateRangesGo, hc]; right; exact hr1, hr2, hr3⟩

/-
Section 4: rate-limit waits (claim C8).

github_crawler.py (handle_errors, 403 branch):
  wait_for = max(0, reset_time - time.time()); time.sleep(wait_for)
github_to_postgres.py (after each successful batch, if the remaining header
is below 10):
  wait = reset_time - time.time() + 5; time.sleep(wait)
-/

/-- Wait computed by the 403 branch of handle_errors in github_crawler.py. -/
def crawlerRateLimitWait (resetTime now : Int) : Int := max 0 (resetTime - now)

/-- Wait computed by github_to_postgres.py when the remaining-calls header is
low; time.sleep raises ValueError when this is negative. -/
def pgRateLimitWait (resetTime now : Int) : Int := resetTime - now + 5

/-- The low-water guard of github_to_postgres.py: the wait is computed and
slept only when the remaining header is below 10. -/
def pgRateWaitIfLow (remaining : Nat) (resetTime now : Int) : Option Int :=
  if remaining < 10 then some (pgRateLimitWait resetTime now) else none

/-
Section 5: the fetch pipeline of github_crawler.py (claims C1, C2, C3, C4,
C10).

One simulated element of the request stream stands for the outcome of one
requests.post call: either the call raises requests.RequestException, or it
returns a response with an HTTP status code and a parsed JSON body.  A body
is either one containing a top-level "errors" list, or a well-formed
data.search envelope carrying records, hasNextPage and endCursor.
-/

/-- Parsed JSON body of a GraphQL response. -/
inductive CrawlerBody where
  | errors
  | page (records : List Repo) (hasNext : Bool) (cursor : Option String)
  deriving DecidableEq

/-- Outcome of one requests.post call inside fetch_repositories. -/
inductive CrawlerReq where
  | exn
  | resp (status : Nat) (body : CrawlerBody)
  deriving DecidableEq

/-- The Python exceptions relevant to the retry loop's control flow. -/
inductive PyException where
  | unboundLocalError
  | requestException
  deriving DecidableEq

/-- The except clause of the retry loop in fetch_repositories catches
requests.exceptions.RequestException and nothing else. -/
def catchesNetworkOnly : PyException → Bool
  | PyException.requestException => true
  | PyException.unboundLocalError => false

/-- Control flow of handle_errors in github_crawler.py.  On a 403 it sleeps
crawlerRateLimitWait and returns True; on any other non-200 status it
executes `retries -= 1` on the local name retries, which is never assigned
in the function, so Python raises UnboundLocalError before reaching the
`return True` of that branch; on a 200 it returns False. -/
def handle_errors (status : Nat) : Except PyException Bool :=
  if status = 403 then Except.ok true
  else if status ≠ 200 then Except.error PyException.unboundLocalError
  else Except.ok false

/-- Result of the innermost `while retries > 0` loop for one page. -/
inductive RetryResult where
  | success (records : List Repo) (hasNext : Bool) (cursor : Option String)
  | exhausted
  | uncaught (e : PyException)
  | starved
  deriving DecidableEq

/-- One run of the retry loop: its result, the unconsumed request stream,
the number of POST requests issued, and the backoff sleeps performed (in
seconds, in order). -/
structure RetryRun where
  result : RetryResult
  rest : List CrawlerReq
  attempts : Nat
  sleeps : List Nat
  deriving DecidableEq

/-- The `while retries > 0` loop of fetch_repositories, from the source:
  - requests.RequestException: retries -= 1, sleep 3 seconds, loop;
  - handle_errors returns True (status 403): continue with retries intact;
  - handle_errors raises (other non-200 status): the exception is not a
    RequestException, so it escapes the loop and the function;
  - body has a top-level "errors" list: retries -= 1, sleep 2 seconds, loop;
  - well-formed page: update state and break out of the loop.
starved marks the model artifact of the simulated stream running out. -/
def crawlerRetry : Nat → List CrawlerReq → RetryRun
  | 0, input => ⟨RetryResult.exhausted, input, 0, []⟩
  | _ + 1, [] => ⟨RetryResult.starved, [], 0, []⟩
  | r + 1, q :: rest =>
    match q with
    | CrawlerReq.exn =>
      let k := crawlerRetry r rest
      ⟨k.result, k.rest, k.attempts + 1, 3 :: k.sleeps⟩
    | CrawlerReq.resp status body =>
      match handle_errors status with
      | Except.error e => ⟨RetryResult.uncaught e, rest, 1, []⟩
      | Except.ok true =>
        let k := crawlerRetry (r + 1) rest
        ⟨k.result, k.rest, k.attempts + 1, k.sleeps⟩
      | Except.ok false =>
        match body with
        | CrawlerBody.errors =>
          let k := crawlerRetry r rest
          ⟨k.result, k.rest, k.attempts + 1, 2 :: k.sleeps⟩
        | CrawlerBody.page recs more cur => ⟨RetryResult.success recs more cur, rest, 1, []⟩

/-- State of the page loop: the global all_repos accumulator, has_next_page
and end_cursor. -/
structure PageLoopState where
  allRepos : List Repo
  hasNext : Bool
  cursor : Option String
  deriving DecidableEq

/-- One iteration of the `while has_next_page and len(all_repos) < target`
loop body: run the retry loop for the current page; on success extend
all_repos and advance the cursor state; otherwise leave the state exactly as
it was (so an exhausted retry budget re-issues the query for the very same
page on the next iteration). -/
def crawlerPageStep (st : PageLoopState) (input : List CrawlerReq) :
    PageLoopState × List CrawlerReq × RetryResult :=
  let k := crawlerRetry 3 input
  match k.result with
  | RetryResult.success recs more cur =>
    (⟨st.allRepos ++ recs, more, cur⟩, k.rest, RetryResult.success recs more cur)
  | other => (st, k.rest, other)

/-- Observable operations of one run: a page fetch yielding n records, or a
store of n records. -/
inductive Event where
  | fetched (n : Nat)
  | stored (n : Nat)
  deriving DecidableEq

def Event.isStored : Event → Bool
  | Event.stored _ => true
  | Event.fetched _ => false

/-- How a loop of the model ended. -/
inductive LoopExit where
  | normal
  | early
  | aborted (e : PyException)
  | starved
  deriving DecidableEq

def LoopExit.isAborted : LoopExit → Bool
  | LoopExit.aborted _ => true
  | _ => false

/-- Output of the page loop: final state, unconsumed stream, fetch events in
order, the end_cursor value used by each issued page query, and how the
loop ended (early means the `if len(all_repos) >= target: return all_repos`
inside the loop fired). -/
structure PageLoopOut where
  state : PageLoopState
  rest : List CrawlerReq
  events : List Event
  queries : List (Option String)
  exit : LoopExit
  deriving DecidableEq

/-- The `while has_next_page and len(all_repos) < target` loop of
fetch_repositories, with fuel bounding the number of iterations (a model
artifact: the source loop can re-issue the same page without bound). -/
def crawlerPageLoop : Nat → PageLoopState → List CrawlerReq → Nat → PageLoopOut
  | 0, st, input, _ => ⟨st, input, [], [], LoopExit.starved⟩
  | fuel + 1, st, input, target =>
    if st.hasNext = true ∧ st.allRepos.length < target then
      let s := crawlerPageStep st input
      match s.2.2 with
      | RetryResult.success recs _ _ =>
        if target ≤ s.1.allRepos.length then
          ⟨s.1, s.2.1, [Event.fetched recs.length], [st.cursor], LoopExit.early⟩
        else
          let o := crawlerPageLoop fuel s.1 s.2.1 target
          ⟨o.state, o.rest, Event.fetched recs.length :: o.events, st.cursor :: o.queries, o.exit⟩
      | RetryResult.exhausted =>
        let o := crawlerPageLoop fuel s.1 s.2.1 target
        ⟨o.state, o.rest, o.events, st.cursor :: o.queries, o.exit⟩
      | RetryResult.uncaught e => ⟨s.1, s.2.1, [], [st.cursor], LoopExit.aborted e⟩
      | RetryResult.starved => ⟨s.1, s.2.1, [], [st.cursor], LoopExit.starved⟩
    else ⟨st, input, [], [], LoopExit.normal⟩

/-- Output of the whole fetch: everything accumulated in all_repos, the
fetch events, the unconsumed stream and how the run ended. -/
structure FetchOut where
  repos : List Repo
  events : List Event
  rest : List CrawlerReq
  exit : LoopExit
  deriving DecidableEq

/-- The `for date_filter in date_ranges` loop of fetch_repositories: each
partition restarts the page loop with has_next_page = True and
end_cursor = None, while all_repos persists across partitions.  nParts is
the number of generated date windows; an early return, an escaped exception
or a starved stream ends the whole fetch. -/
def crawlerFetchGo : Nat → Nat → List CrawlerReq → List Repo → Nat → FetchOut
  | 0, _, input, acc, _ => ⟨acc, [], input, LoopExit.normal⟩
  | nParts + 1, fuel, input, acc, target =>
    let o := crawlerPageLoop fuel ⟨acc, true, none⟩ input target
    match o.exit with
    | LoopExit.normal =>
      let o2 := crawlerFetchGo nParts fuel o.rest o.state.allRepos target
      ⟨o2.repos, o.events ++ o2.events, o2.rest, o2.exit⟩
    | e => ⟨o.state.allRepos, o.events, o.rest, e⟩

/-- fetch_repositories of github_crawler.py, starting from an empty
all_repos. -/
def crawlerFetch (nParts fuel : Nat) (input : List CrawlerReq) (target : Nat) : FetchOut :=
  crawlerFetchGo nParts fuel input [] target

/-- The main block of github_crawler.py: fetch_repositories runs to
completion and its whole result is handed to store_in_postgres in one call
at the end; if an exception escaped fetch_repositories, the except clause
catches it and nothing is ever stored. -/
def crawlerRunTrace (nParts fuel : Nat) (input : List CrawlerReq) (target : Nat) :
    List Event :=
  let f := crawlerFetch nParts fuel input target
  match f.exit with
  | LoopExit.aborted _ => f.events
  | _ => f.events ++ [Event.stored f.repos.length]

/-
Section 6: the fetch pipeline of github_to_postgres.py (claims C2, C3, C4).
-/

/-- Parsed body of a response in github_to_postgres.py: a top-level errors
list, a body whose data.search access raises KeyError or TypeError
(malformed), or a well-formed page. -/
inductive PgBody where
  | errors
  | malformed
  | page (records : List Repo) (hasNext : Bool) (cursor : Option String)
  deriving DecidableEq

/-- Outcome of one requests.post call in github_to_postgres.py:
response.raise_for_status() turns every non-2xx status into an HTTPError,
a subclass of RequestException, so a network failure and a bad status are
the same exn case. -/
inductive PgReq where
  | exn
  | ok (body : PgBody)
  deriving DecidableEq

/-- Result of the `for attempt in range(3)` retry loop: the body obtained
(with unconsumed stream, attempts issued and backoff sleeps), the give-up
case after the third failed attempt (the function then returns []), or a
starved simulated stream. -/
inductive PgRetryOut where
  | got (body : PgBody) (rest : List PgReq) (attempts : Nat) (sleeps : List Nat)
  | gaveUp (rest : List PgReq) (attempts : Nat) (sleeps : List Nat)
  | starved
  deriving DecidableEq

/-- The `for attempt in range(3)` loop: break on success; on a
RequestException sleep 2 ** attempt seconds and continue while attempt < 2;
on the third failure give up. -/
def pgRetryGo (attempt : Nat) (sleeps : List Nat) : List PgReq → PgRetryOut
  | [] => PgRetryOut.starved
  | PgReq.ok b :: rest => PgRetryOut.got b rest (attempt + 1) sleeps
  | PgReq.exn :: rest =>
    if attempt < 2 then pgRetryGo (attempt + 1) (sleeps ++ [2 ^ attempt]) rest
    else PgRetryOut.gaveUp rest (attempt + 1) sleeps

def pgRetry (input : List PgReq) : PgRetryOut := pgRetryGo 0 [] input

/-- The `while has_next_page and len(all_repos) < 50` loop of
fetch_repositories in github_to_postgres.py: a retry give-up returns []
(discarding everything fetched so far), an errors body or a malformed body
breaks out of the loop returning the accumulator, a page extends the
accumulator and continues. -/
def pgFetchGo : Nat → List Repo → Bool → List PgReq → List Repo
  | 0, acc, _, _ => acc
  | fuel + 1, acc, hasNext, input =>
    if hasNext = true ∧ acc.length < 50 then
      match pgRetry input with
      | PgRetryOut.starved => acc
      | PgRetryOut.gaveUp _ _ _ => []
      | PgRetryOut.got b rest _ _ =>
        match b with
        | PgBody.errors => acc
        | PgBody.malformed => acc
        | PgBody.page recs more _ => pgFetchGo fuel (acc ++ recs) more rest
    else acc

/-- fetch_repositories of github_to_postgres.py. -/
def pgFetch (input : List PgReq) : List Repo :=
  pgFetchGo (input.length + 1) [] true input

/-
Section 7: process setup and exit (claim C9).
-/

/-- Setup conditions of one run: whether GITHUB_TOKEN is set and whether
psycopg2.connect succeeds. -/
structure SetupEnv where
  tokenPresent : Bool
  dbReachable : Bool
  deriving DecidableEq

/-- What the process reports on exit: the interpreter's exit status, whether
a database connection was ever opened, and whether it was closed. -/
structure ExitReport where
  exitCode : Nat
  connOpened : Bool
  connClosed : Bool
  deriving DecidableEq

/-- The main block of github_crawler.py.  Every failure, setup failures
included, lands in `except Exception as e: print(...)`; the finally block
closes conn only when the name conn is bound (`if 'conn' in locals()`);
sys.exit is never called, so the interpreter always terminates with exit
status 0.  A missing token raises ValueError before connecting; an
unreachable database raises inside psycopg2.connect, so conn is never
bound in either failure case. -/
def crawlerMain (env : SetupEnv) : ExitReport :=
  if env.tokenPresent = false then ⟨0, false, false⟩
  else if env.dbReachable = false then ⟨0, false, false⟩
  else ⟨0, true, true⟩

/-- Module-level setup of github_to_postgres.py: a missing token raises
ValueError and an unreachable database raises out of psycopg2.connect, both
at module scope, outside any try block; the interpreter then dies with its
generic uncaught-exception status 1.  Returns some exit status when setup
fails, none when the run proceeds. -/
def pgSetupExitCode (env : SetupEnv) : Option Nat :=
  if env.tokenPresent = false then some 1
  else if env.dbReachable = false then some 1
  else none

/-
Section 8: the persistence discipline the specification prescribes
(claim C1).
-/

/-- Modelled from the spec: the per-page incremental persistence that
section 4.6 of the specification prescribes for the orchestrator ("on
success, persist returned records immediately via RepositoryStore" before
the next page is fetched) and that no code under src implements.  True of
an event trace iff every page fetch is followed by a store before the next
page fetch.  This definition follows the specification's words and exists
only to state claim C1 against the trace the source produces. -/
def persistsEachPageImmediately : List Event → Bool
  | [] => true
  | Event.stored _ :: rest => persistsEachPageImmediately rest
  | Event.fetched _ :: rest =>
    match rest with
    | Event.stored _ :: _ => persistsEachPageImmediately rest
    | _ => false

/-- Concrete repository records used in counterexamples and witnesses. -/
def repoA : Repo := ⟨"octo", "alpha", 42, some 735300⟩

def repoB : Repo := ⟨"octo", "beta", 7, some 735301⟩

def repoC : Repo := ⟨"mona", "gamma", 11, none⟩

def repoD : Repo := ⟨"mona", "delta", 3, some 735999⟩

def repoE : Repo := ⟨"lisa", "epsilon", 99, none⟩

/-
Section 9: small equation lemmas for handle_errors and the retry loop.
-/

theorem handle_errors_200 : handle_errors 200 = Except.ok false := rfl

theorem handle_errors_403 : handle_errors 403 = Except.ok true := rfl

theorem handle_errors_other (status : Nat) (h1 : status ≠ 403) (h2 : status ≠ 200) :
    handle_errors status = Except.error PyException.unboundLocalError := by
  unfold handle_errors
  rw [if_neg h1, if_pos h2]

theorem crawlerRetry_exn (r : Nat) (rest : List CrawlerReq) :
    crawlerRetry (r + 1) (CrawlerReq.exn :: rest) =
      ⟨(crawlerRetry r rest).result, (crawlerRetry r rest).rest,
       (crawlerRetry r rest).attempts + 1, 3 :: (crawlerRetry r rest).sleeps⟩ := rfl

theorem crawlerRetry_403 (r : Nat) (body : CrawlerBody) (rest : List CrawlerReq) :
    crawlerRetry (r + 1) (CrawlerReq.resp 403 body :: rest) =
      ⟨(crawlerRetry (r + 1) rest).result, (crawlerRetry (r + 1) rest).rest,
       (crawlerRetry (r + 1) rest).attempts + 1, (crawlerRetry (r + 1) rest).sleeps⟩ := rfl

theorem crawlerRetry_errors (r : Nat) (rest : List CrawlerReq) :
    crawlerRetry (r + 1) (CrawlerReq.resp 200 CrawlerBody.errors :: rest) =
      ⟨(crawlerRetry r rest).result, (crawlerRetry r rest).rest,
       (crawlerRetry r rest).attempts + 1, 2 :: (crawlerRetry r rest).sleeps⟩ := rfl

theorem crawlerRetry_page (r : Nat) (recs : List Repo) (more : Bool)
    (cur : Option String) (rest : List CrawlerReq) :
    crawlerRetry (r + 1) (CrawlerReq.resp 200 (CrawlerBody.page recs more cur) :: rest) =
      ⟨RetryResult.success recs more cur, rest, 1, []⟩ := rfl

theorem crawlerRetry_resp (r : Nat) (status : Nat) (body : CrawlerBody)
    (rest : List CrawlerReq) :
    crawlerRetry (r + 1) (CrawlerReq.resp status body :: rest) =
      (match handle_errors status with
      | Except.error e => ⟨RetryResult.uncaught e, rest, 1, []⟩
      | Except.ok true =>
        ⟨(crawlerRetry (r + 1) rest).result, (crawlerRetry (r + 1) rest).rest,
         (crawlerRetry (r + 1) rest).attempts + 1, (crawlerRetry (r + 1) rest).sleeps⟩
      | Except.ok false =>
        match body with
        | CrawlerBody.errors =>
          ⟨(crawlerRetry r rest).result, (crawlerRetry r rest).rest,
           (crawlerRetry r rest).attempts + 1, 2 :: (crawlerRetry r rest).sleeps⟩
        | CrawlerBody.page recs more cur =>
          ⟨RetryResult.success recs more cur, rest, 1, []⟩) := rfl

theorem crawlerRetry_badStatus (r : Nat) (status : Nat) (body : CrawlerBody)
    (rest : List CrawlerReq) (h1 : status ≠ 403) (h2 : status ≠ 200) :
    crawlerRetry (r + 1) (CrawlerReq.resp status body :: rest) =
      ⟨RetryResult.uncaught PyException.unboundLocalError, rest, 1, []⟩ := by
  rw [crawlerRetry_resp, handle_errors_other status h1 h2]

/-- Every backoff sleep of the crawler's retry loop is the constant 3
seconds (after a network failure) or the constant 2 seconds (after an
errors body). -/
theorem crawlerRetry_sleeps (input : List CrawlerReq) :
    ∀ r : Nat, ∀ s ∈ (crawlerRetry r input).sleeps, s = 3 ∨ s = 2 := by
  induction input with
  | nil =>
    intro r s hs
    cases r with
    | zero => simp [crawlerRetry] at hs
    | succ r => simp [crawlerRetry] at hs
  | cons q rest ih =>
    intro r s hs
    cases r with
    | zero => simp [crawlerRetry] at hs
    | succ r =>
      cases q with
      | exn =>
        rw [crawlerRetry_exn] at hs
        rcases List.mem_cons.mp hs with h | h
        · exact Or.inl h
        · exact ih r s h
      | resp status body =>
        by_cases h403 : status = 403
        · subst h403
          rw [crawlerRetry_403] at hs
          exact ih (r + 1) s hs
        · by_cases h200 : status = 200
          · subst h200
            cases body with
            | errors =>
              rw [crawlerRetry_errors] at hs
              rcases List.mem_cons.mp hs with h | h
              · exact Or.inr h
              · exact ih r s h
            | page recs more cur =>
              rw [crawlerRetry_page] at hs
              simp at hs
          · rw [crawlerRetry_badStatus r status body rest h403 h200] at hs
            simp at hs

/-- True of a request stream containing no 403 response (a 403 makes the
loop retry without decrementing retries, so attempts are unbounded). -/
def no403 : List CrawlerReq → Bool
  | [] => true
  | CrawlerReq.exn :: rest => no403 rest
  | CrawlerReq.resp status _ :: rest => decide (status ≠ 403) && no403 rest

/-- Absent rate-limit responses, the retry loop issues at most as many POST
requests as its retry budget. -/
theorem crawlerRetry_attempts_le (input : List CrawlerReq) :
    ∀ r : Nat, no403 input = true → (crawlerRetry r input).attempts ≤ r := by
  induction input with
  | nil =>
    intro r h
    cases r with
    | zero => simp [crawlerRetry]
    | succ r => simp [crawlerRetry]
  | cons q rest ih =>
    intro r h
    cases r with
    | zero => simp [crawlerRetry]
    | succ r =>
      cases q with
      | exn =>
        have h2 : no403 rest = true := by simpa [no403] using h
        rw [crawlerRetry_exn]
        have := ih r h2
        simpa using this
      | resp status body =>
        have hh : status ≠ 403 ∧ no403 rest = true := by
          simpa [no403] using h
        by_cases h200 : status = 200
        · subst h200
          cases body with
          | errors =>
            rw [crawlerRetry_errors]
            have := ih r hh.2
            simpa using this
          | page recs more cur =>
            rw [crawlerRetry_page]
            simp
        · rw [crawlerRetry_badStatus r status body rest hh.1 h200]
          simp

/-
Section 10: the page loop emits only fetch events; the one store of a run
happens after the fetch returns.
-/

theorem crawlerPageLoop_events (fuel : Nat) :
    ∀ (st : PageLoopState) (input : List CrawlerReq) (target : Nat),
      ∀ ev ∈ (crawlerPageLoop fuel st input target).events, ev.isStored = false := by
  induction fuel with
  | zero =>
    intro st input target ev h
    simp [crawlerPageLoop] at h
  | succ f ih =>
    intro st input target ev h
    simp only [crawlerPageLoop] at h
    split at h
    · split at h
      · split at h
        · simp at h
          rw [h]
          rfl
        · simp only [List.mem_cons] at h
          rcases h with h | h
          · rw [h]; rfl
          · exact ih _ _ target ev h
      · exact ih _ _ target ev h
      · simp at h
      · simp at h
    · simp at h

theorem crawlerFetchGo_events (nParts : Nat) :
    ∀ (fuel : Nat) (input : List CrawlerReq) (acc : List Repo) (target : Nat),
      ∀ ev ∈ (crawlerFetchGo nParts fuel input acc target).events, ev.isStored = false := by
  induction nParts with
  | zero =>
    intro fuel input acc target ev h
    simp [crawlerFetchGo] at h
  | succ n ih =>
    intro fuel input acc target ev h
    simp only [crawlerFetchGo] at h
    rcases hex : (crawlerPageLoop fuel ⟨acc, true, none⟩ input target).exit with _ | _ | e | _ <;>
      rw [hex] at h
    · simp only [List.mem_append] at h
      rcases h with h | h
      · exact crawlerPageLoop_events fuel _ input target ev h
      · exact ih fuel _ _ target ev h
    · exact crawlerPageLoop_events fuel _ input target ev h
    · exact crawlerPageLoop_events fuel _ input target ev h
    · exact crawlerPageLoop_events fuel _ input target ev h

/-
Section 11: the claims.
-/

/-- Concrete two-page run input used by the C1 counterexample: one partition
whose first page returns three records with hasNextPage true, and whose
second page returns two records with hasNextPage false. -/
def cexRunInput : List CrawlerReq :=
  [CrawlerReq.resp 200 (CrawlerBody.page [repoA, repoB, repoC] true (some "c1")),
   CrawlerReq.resp 200 (CrawlerBody.page [repoD, repoE] false none)]

/-- Claim C1, counterexample.  The claim says that after each successful page
fetch the page's records are persisted before the next page is fetched and
that the orchestrator never accumulates across pages with a single write at
the end.  On a run of github_crawler.py with one partition and two pages the
observable trace is fetch, fetch, store: the only store happens once, at the
end of the run, after both pages, so the spec-modelled per-page persistence
predicate is false of the trace. -/
theorem C1_counterexample :
    crawlerRunTrace 1 5 cexRunInput 100 =
      [Event.fetched 3, Event.fetched 2, Event.stored 5]
  ∧ persistsEachPageImmediately (crawlerRunTrace 1 5 cexRunInput 100) = false := by
  decide

/-- Claim C1, amended.  fetch_repositories accumulates every fetched page in
the in-memory all_repos list across all pages and partitions and emits no
store event at all; the single store_in_postgres call happens once, after
the fetch returns, on the whole accumulated list (and not at all when an
exception escaped the fetch). -/
theorem C1_single_bulk_store (nParts fuel target : Nat) (input : List CrawlerReq) :
    (∀ ev ∈ (crawlerFetch nParts fuel input target).events, ev.isStored = false)
  ∧ ((crawlerFetch nParts fuel input target).exit.isAborted = false →
      crawlerRunTrace nParts fuel input target =
        (crawlerFetch nParts fuel input target).events
          ++ [Event.stored (crawlerFetch nParts fuel input target).repos.length])
  ∧ ((crawlerFetch nParts fuel input target).exit.isAborted = true →
      crawlerRunTrace nParts fuel input target =
        (crawlerFetch nParts fuel input target).events) := by
  refine ⟨crawlerFetchGo_events nParts fuel input [] target, ?_, ?_⟩
  · intro h
    simp only [crawlerRunTrace]
    rcases hex : (crawlerFetch nParts fuel input target).exit with _ | _ | e | _
    · rfl
    · rfl
    · rw [hex] at h; simp [LoopExit.isAborted] at h
    · rfl
  · intro h
    simp only [crawlerRunTrace]
    rcases hex : (crawlerFetch nParts fuel input target).exit with _ | _ | e | _
    · rw [hex] at h; simp [LoopExit.isAborted] at h
    · rw [hex] at h; simp [LoopExit.isAborted] at h
    · rfl
    · rw [hex] at h; simp [LoopExit.isAborted] at h

/-- One-page input for the C1 witness. -/
def runInputWit : List CrawlerReq :=
  [CrawlerReq.resp 200 (CrawlerBody.page [repoA] false none)]

/-- Witness for C1_single_bulk_store at a concrete one-page run. -/
theorem C1_single_bulk_store_witness :
    Event.isStored (Event.fetched 1) = false
  ∧ crawlerRunTrace 1 3 runInputWit 100 =
      (crawlerFetch 1 3 runInputWit 100).events
        ++ [Event.stored (crawlerFetch 1 3 runInputWit 100).repos.length] :=
  ⟨(C1_single_bulk_store 1 3 100 runInputWit).1 (Event.fetched 1) (by decide),
   (C1_single_bulk_store 1 3 100 runInputWit).2.1 (by decide)⟩

/-- Claim C2, counterexample.  The claim says a response whose body carries a
top-level errors list fails the page immediately, with zero retries of that
request, the failure propagating to the caller.  In github_crawler.py the
errors branch decrements retries, sleeps 2 seconds and re-enters the loop:
with the retry budget 3, a stream whose first response is an errors body and
whose second is a well-formed page ends in success on the second POST, so
the request was retried rather than failed. -/
theorem C2_counterexample :
    crawlerRetry 3 [CrawlerReq.resp 200 CrawlerBody.errors,
        CrawlerReq.resp 200 (CrawlerBody.page [repoA] false none)] =
      ⟨RetryResult.success [repoA] false none, [], 2, [2]⟩ := by
  decide

/-- Claim C2, amended.  In github_to_postgres.py an errors body ends the
fetch loop at once with no retry of that request, the function returning the
records accumulated so far (a normal return, not an error).  In
github_crawler.py an errors body is treated like a transient failure: the
retry budget is decremented, a 2 second sleep is recorded, and the page
outcome is whatever retrying with the remaining budget yields. -/
theorem C2_errors_body_handling (f : Nat) (acc : List Repo) (rest2 : List PgReq)
    (r : Nat) (rest : List CrawlerReq) :
    (acc.length < 50 → pgFetchGo (f + 1) acc true (PgReq.ok PgBody.errors :: rest2) = acc)
  ∧ (crawlerRetry (r + 1) (CrawlerReq.resp 200 CrawlerBody.errors :: rest)).result
      = (crawlerRetry r rest).result
  ∧ (crawlerRetry (r + 1) (CrawlerReq.resp 200 CrawlerBody.errors :: rest)).sleeps
      = 2 :: (crawlerRetry r rest).sleeps := by
  refine ⟨?_, by rw [crawlerRetry_errors], by rw [crawlerRetry_errors]⟩
  intro hlen
  simp [pgFetchGo, pgRetry, pgRetryGo, hlen]

/-- Witness for C2_errors_body_handling at concrete inputs. -/
theorem C2_errors_body_handling_witness :
    pgFetchGo 3 [repoA] true (PgReq.ok PgBody.errors :: []) = [repoA]
  ∧ (crawlerRetry 3 (CrawlerReq.resp 200 CrawlerBody.errors :: [])).result
      = (crawlerRetry 2 []).result :=
  ⟨(C2_errors_body_handling 2 [repoA] [] 2 []).1 (by decide),
   (C2_errors_body_handling 2 [repoA] [] 2 []).2.1⟩

/-- Claim C3, counterexample.  The claim says exhausting the retry ceiling
abandons only the remainder of the current partition, continues with the
next partition, is never fatal to the run, and retains everything persisted
so far.  In github_to_postgres.py a give-up after three failed attempts
makes fetch_repositories return [], discarding the three records already
fetched and ending the only fetch of the run.  In github_crawler.py an
exhausted retry budget leaves has_next_page and end_cursor untouched, so the
loop re-issues the query for the very same page of the same partition (the
queries trace repeats the cursor) instead of moving to the next partition. -/
theorem C3_counterexample :
    pgFetch [PgReq.ok (PgBody.page [repoA, repoB, repoC] true none),
        PgReq.exn, PgReq.exn, PgReq.exn] = []
  ∧ (crawlerPageLoop 3 ⟨[], true, some "k"⟩
        [CrawlerReq.exn, CrawlerReq.exn, CrawlerReq.exn,
         CrawlerReq.resp 200 (CrawlerBody.page [repoA] false none)] 100).queries
      = [some "k", some "k"] := by
  decide

/-- Claim C3, amended.  In github_crawler.py an exhausted retry budget
leaves the page-loop state (accumulated records, has_next_page, end_cursor)
exactly unchanged, so the same page of the same partition is re-attempted
with a fresh budget rather than the partition being abandoned; in
github_to_postgres.py an exhausted retry budget returns [] from the fetch,
abandoning the whole run's fetch and discarding every record accumulated so
far. -/
theorem C3_retry_exhaustion (st : PageLoopState) (input : List CrawlerReq)
    (f : Nat) (acc : List Repo) (input2 rest2 : List PgReq) (a : Nat) (sl : List Nat) :
    ((crawlerPageStep st input).2.2 = RetryResult.exhausted →
      (crawlerPageStep st input).1 = st)
  ∧ (acc.length < 50 → pgRetry input2 = PgRetryOut.gaveUp rest2 a sl →
      pgFetchGo (f + 1) acc true input2 = []) := by
  constructor
  · intro h
    simp only [crawlerPageStep] at h ⊢
    rcases hres : (crawlerRetry 3 input).result with ⟨recs, more, cur⟩ | _ | e | _
    · rw [hres] at h
      simp at h
    · rfl
    · rfl
    · rfl
  · intro hlen h2
    simp [pgFetchGo, hlen, h2]

/-- Witness for C3_retry_exhaustion at concrete inputs. -/
theorem C3_retry_exhaustion_witness :
    (crawlerPageStep ⟨[repoA], true, some "p"⟩
        [CrawlerReq.exn, CrawlerReq.exn, CrawlerReq.exn]).1 =
      (⟨[repoA], true, some "p"⟩ : PageLoopState)
  ∧ pgFetchGo 3 [repoA] true [PgReq.exn, PgReq.exn, PgReq.exn] = [] :=
  ⟨(C3_retry_exhaustion ⟨[repoA], true, some "p"⟩
      [CrawlerReq.exn, CrawlerReq.exn, CrawlerReq.exn] 2 [repoA]
      [PgReq.exn, PgReq.exn, PgReq.exn] [] 3 [1, 2]).1 (by decide),
   (C3_retry_exhaustion ⟨[repoA], true, some "p"⟩
      [CrawlerReq.exn, CrawlerReq.exn, CrawlerReq.exn] 2 [repoA]
      [PgReq.exn, PgReq.exn, PgReq.exn] [] 3 [1, 2]).2 (by decide) (by decide)⟩

/-- Claim C4, counterexample.  The claim says transient failures are retried
with exponential backoff up to the attempt ceiling of 3 and permanent
failures are re-attempted zero additional times.  In github_crawler.py a
stream of three permanent errors-body responses consumes the whole retry
budget of 3 POSTs with three constant 2 second sleeps (a permanent failure
re-attempted twice, not zero times), and two transient network failures
followed by a good page succeed after constant sleeps of 3 and 3 seconds,
not exponentially growing ones. -/
theorem C4_counterexample :
    crawlerRetry 3 (List.replicate 3 (CrawlerReq.resp 200 CrawlerBody.errors)) =
      ⟨RetryResult.exhausted, [], 3, [2, 2, 2]⟩
  ∧ crawlerRetry 3 [CrawlerReq.exn, CrawlerReq.exn,
        CrawlerReq.resp 200 (CrawlerBody.page [repoA] true (some "x"))] =
      ⟨RetryResult.success [repoA] true (some "x"), [], 3, [3, 3]⟩ := by
  decide

/-- Claim C4, amended.  github_to_postgres.py issues at most 3 attempts per
page, sleeping 2 to the power of the attempt index (1 then 2 seconds,
exponential) between attempts, gives up after the third failure, and never
re-attempts a permanent failure (a body-level error is only seen after the
retry loop succeeded, with one POST).  github_crawler.py also caps a page at
3 POSTs when no rate-limit response intervenes, but each of its backoff
sleeps is the constant 3 seconds (network failure) or 2 seconds (errors
body, a permanent failure it re-attempts like a transient one). -/
theorem C4_retry_policy (b : PgBody) (rest2 : List PgReq) (r : Nat)
    (input : List CrawlerReq) :
    pgRetry (PgReq.ok b :: rest2) = PgRetryOut.got b rest2 1 []
  ∧ pgRetry (PgReq.exn :: PgReq.ok b :: rest2) = PgRetryOut.got b rest2 2 [2 ^ 0]
  ∧ pgRetry (PgReq.exn :: PgReq.exn :: PgReq.ok b :: rest2)
      = PgRetryOut.got b rest2 3 [2 ^ 0, 2 ^ 1]
  ∧ pgRetry (PgReq.exn :: PgReq.exn :: PgReq.exn :: rest2)
      = PgRetryOut.gaveUp rest2 3 [2 ^ 0, 2 ^ 1]
  ∧ (∀ s ∈ (crawlerRetry r input).sleeps, s = 3 ∨ s = 2)
  ∧ (no403 input = true → (crawlerRetry r input).attempts ≤ r) :=
  ⟨rfl, rfl, rfl, rfl, crawlerRetry_sleeps input r, crawlerRetry_attempts_le input r⟩

/-- Witness for C4_retry_policy at concrete inputs. -/
theorem C4_retry_policy_witness :
    pgRetry [PgReq.exn, PgReq.ok PgBody.errors] = PgRetryOut.got PgBody.errors [] 2 [1]
  ∧ ((3 : Nat) = 3 ∨ (3 : Nat) = 2)
  ∧ (crawlerRetry 3 [CrawlerReq.exn]).attempts ≤ 3 :=
  ⟨(C4_retry_policy PgBody.errors [] 3 [CrawlerReq.exn]).2.1,
   (C4_retry_policy PgBody.errors [] 3 [CrawlerReq.exn]).2.2.2.2.1 3 (by decide),
   (C4_retry_policy PgBody.errors [] 3 [CrawlerReq.exn]).2.2.2.2.2 (by decide)⟩

/-- Concrete table used by the C5 and C6 witnesses: one existing row under
the key of repoA with stars 1, created_at 100 and last_updated 50. -/
def tWit : Table :=
  fun k => if k = ("octo", "alpha") then some ⟨1, some 100, 50⟩ else none

/-- Claim C5, confirmed.  For every record batch, applying the upsert twice
leaves the table in the same state as applying it once except that
last_updated is refreshed (stated for the store of github_crawler.py and the
one of github_to_postgres.py, whose second pass may run at a different
current timestamp); and on a natural-key conflict only stars and
last_updated are updated while created_at is kept and every other key is
untouched. -/
theorem C5_upsert_idempotent (t : Table) (rs : List Repo) (n1 n2 : Int)
    (r : Repo) (row : RowData) :
    eraseLU (store_in_postgres (store_in_postgres t rs n1) rs n2) =
      eraseLU (store_in_postgres t rs n1)
  ∧ eraseLU (save_to_postgres (save_to_postgres t rs n1) rs n2) =
      eraseLU (save_to_postgres t rs n1)
  ∧ (t (repoKey r) = some row →
      upsertOneWith (fun x => x.createdAt) t r n1 (repoKey r) =
        some ⟨r.stars, row.created_at, n1⟩)
  ∧ (∀ k, k ≠ repoKey r → upsertOneWith (fun x => x.createdAt) t r n1 k = t k) := by
  refine ⟨upsertWith_idem _ t rs n1 n2, upsertWith_idem _ t rs n1 n2, ?_, ?_⟩
  · intro h
    simp [upsertOneWith, h, updateVal]
  · intro k hk
    simp only [upsertOneWith]
    rw [if_neg hk]

/-- Witness for C5_upsert_idempotent at a concrete table and batch. -/
theorem C5_upsert_idempotent_witness :
    eraseLU (store_in_postgres (store_in_postgres tWit [repoA, repoB] 7) [repoA, repoB] 9) =
      eraseLU (store_in_postgres tWit [repoA, repoB] 7)
  ∧ upsertOneWith (fun x => x.createdAt) tWit repoA 7 (repoKey repoA) =
      some ⟨42, some 100, 7⟩ :=
  ⟨(C5_upsert_idempotent tWit [repoA, repoB] 7 9 repoA ⟨1, some 100, 50⟩).1,
   (C5_upsert_idempotent tWit [repoA, repoB] 7 9 repoA ⟨1, some 100, 50⟩).2.2.1 (by decide)⟩

/-- Claim C6, confirmed.  Every upsert batch runs as one transaction: both
store functions issue their INSERTs inside the connection's open transaction
and commit once after the loop, so a crash after any prefix of the batch
statements (any j up to the batch length, commit not yet reached) leaves the
visible table exactly as before the call, and executing the full statement
list publishes exactly the whole batch. -/
theorem C6_store_batch_atomic (ic : Repo → Option Int) (db : Db) (rs : List Repo)
    (now : Int) (j : Nat) :
    (j ≤ rs.length →
      (execStmts ic now db ((storeStmts rs).take j)).visible = db.visible)
  ∧ (execStmts ic now db (storeStmts rs)).visible = upsertWith ic db.current rs now := by
  constructor
  · intro hj
    have ht : (storeStmts rs).take j = (rs.take j).map Stmt.upsertRepo := by
      unfold storeStmts
      rw [List.take_append_of_le_length (by simpa using hj), List.map_take]
    rw [ht, execStmts_upserts]
  · show (execStmts ic now db (rs.map Stmt.upsertRepo ++ [Stmt.commitTxn])).visible = _
    unfold execStmts
    rw [List.foldl_append]
    have h1 : List.foldl (execStmt ic now) db (rs.map Stmt.upsertRepo) =
        ⟨db.visible, upsertWith ic db.current rs now⟩ := execStmts_upserts ic now rs db
    rw [h1]
    rfl

/-- Empty database used by the C6 witness. -/
def dbWit : Db := ⟨fun _ => none, fun _ => none⟩

/-- Witness for C6_store_batch_atomic: crashing after the first statement of
a two-record batch leaves nothing visible; the full run publishes the batch. -/
theorem C6_store_batch_atomic_witness :
    (execStmts (fun x => x.createdAt) 5 dbWit ((storeStmts [repoA, repoB]).take 1)).visible
      = dbWit.visible
  ∧ (execStmts (fun x => x.createdAt) 5 dbWit (storeStmts [repoA, repoB])).visible
      = upsertWith (fun x => x.createdAt) dbWit.current [repoA, repoB] 5 :=
  ⟨(C6_store_batch_atomic (fun x => x.createdAt) dbWit [repoA, repoB] 5 1).1 (by decide),
   (C6_store_batch_atomic (fun x => x.createdAt) dbWit [repoA, repoB] 5 1).2⟩

/-- Claim C7, counterexample.  The claim says no creation date falls into
two partitions and that the windows cover exactly the configured span.  The
windows generated by fetch_repositories are emitted as inclusive search
qualifiers created:A..B whose endpoints meet: 2014-01-31 is both the end of
the first window and the start of the second, so a repository created that
day is matched by two partitions; and the last window ends 4020 days after
the start, on 2025-01-03, strictly beyond the configured end date
2024-12-31, so the windows overshoot the span rather than covering it
exactly. -/
theorem C7_counterexample :
    (toOrdinal 2014 1 1, toOrdinal 2014 1 1 + 30) ∈ crawlerDateRanges
  ∧ (toOrdinal 2014 1 1 + 30, toOrdinal 2014 1 1 + 60) ∈ crawlerDateRanges
  ∧ matchesRange (toOrdinal 2014 1 1, toOrdinal 2014 1 1 + 30) (toOrdinal 2014 1 31) = true
  ∧ matchesRange (toOrdinal 2014 1 1 + 30, toOrdinal 2014 1 1 + 60) (toOrdinal 2014 1 31)
      = true
  ∧ toOrdinal 2014 1 1 + 30 ≠ toOrdinal 2014 1 1
  ∧ (toOrdinal 2014 1 1 + 3990, toOrdinal 2014 1 1 + 4020) ∈ crawlerDateRanges
  ∧ toOrdinal 2024 12 31 < toOrdinal 2014 1 1 + 4020 := by
  decide

/-- Claim C7, amended.  The generated windows are fixed-width (every window
spans exactly delta days), contiguous (each window starts exactly where the
previous one ends) and oldest first (start dates strictly increase), and
with sufficient fuel they cover every day of the half-open configured span;
but adjacent windows share their boundary day under the inclusive range
semantics of the emitted created:A..B qualifier, and the last window may
extend past the configured end date. -/
theorem C7_partition_windows (c e delta fuel x : Nat) (hd : 0 < delta) :
    (∀ r ∈ dateRangesGo e delta fuel c, r.2 = r.1 + delta)
  ∧ List.Chain' (fun r s => s.1 = r.2) (dateRangesGo e delta fuel c)
  ∧ (dateRangesGo e delta fuel c).Pairwise (fun r s => r.1 < s.1)
  ∧ (c ≤ x → x < e → e ≤ c + fuel →
      ∃ r, r ∈ dateRangesGo e delta fuel c ∧ r.1 ≤ x ∧ x < r.2) :=
  ⟨dateRangesGo_width e delta fuel c, dateRangesGo_chain e delta fuel c,
   dateRangesGo_sorted e delta fuel c hd,
   fun h1 h2 h3 => dateRangesGo_cover e delta hd fuel c x h1 h2 h3⟩

/-- Witness for C7_partition_windows at the concrete configuration of
fetch_repositories. -/
theorem C7_partition_windows_witness :
    (toOrdinal 2014 1 1, toOrdinal 2014 1 1 + 30).2
      = (toOrdinal 2014 1 1, toOrdinal 2014 1 1 + 30).1 + 30
  ∧ List.Chain' (fun r s => s.1 = r.2) crawlerDateRanges :=
  ⟨(C7_partition_windows (toOrdinal 2014 1 1) (toOrdinal 2024 12 31) 30
      (toOrdinal 2024 12 31 - toOrdinal 2014 1 1) (toOrdinal 2014 1 1) (by decide)).1
      _ (by decide),
   (C7_partition_windows (toOrdinal 2014 1 1) (toOrdinal 2024 12 31) 30
      (toOrdinal 2024 12 31 - toOrdinal 2014 1 1) (toOrdinal 2014 1 1) (by decide)).2.1⟩

/-- Claim C8, counterexample.  The claim says the computed wait is at least 0
for every value of the headers and the current time.  In
github_to_postgres.py, with the reset header 0 and current time 100 (a reset
timestamp more than 5 seconds in the past) and fewer than 10 remaining
calls, the computed wait is -95, which is negative (and time.sleep raises
ValueError on it). -/
theorem C8_counterexample :
    pgRateWaitIfLow 0 0 100 = some (-95)
  ∧ pgRateLimitWait 0 100 < 0 := by
  decide

/-- Claim C8, amended.  The wait of the 403 branch of github_crawler.py is
clamped at 0, so it is always nonnegative and execution resumes no earlier
than the reset time; the wait of github_to_postgres.py also resumes past the
reset time when it is slept, but it is only nonnegative when the current
time is at most 5 seconds past the reset timestamp. -/
theorem C8_rate_limit_wait (resetTime now : Int) :
    0 ≤ crawlerRateLimitWait resetTime now
  ∧ resetTime ≤ now + crawlerRateLimitWait resetTime now
  ∧ resetTime ≤ now + pgRateLimitWait resetTime now
  ∧ (now ≤ resetTime + 5 → 0 ≤ pgRateLimitWait resetTime now) := by
  unfold crawlerRateLimitWait pgRateLimitWait
  refine ⟨le_max_left _ _, ?_, by omega, by omega⟩
  rcases le_total (resetTime - now) 0 with h | h
  · rw [max_eq_left h]; omega
  · rw [max_eq_right h]; omega

/-- Witness for C8_rate_limit_wait at concrete times. -/
theorem C8_rate_limit_wait_witness :
    0 ≤ crawlerRateLimitWait 200 150
  ∧ (200 : Int) ≤ 150 + crawlerRateLimitWait 200 150
  ∧ 0 ≤ pgRateLimitWait 200 150 :=
  ⟨(C8_rate_limit_wait 200 150).1, (C8_rate_limit_wait 200 150).2.1,
   (C8_rate_limit_wait 200 150).2.2.2 (by decide)⟩

/-- Claim C9, counterexample.  The claim says every unrecovered setup
failure terminates the process with a distinct non-zero exit signal.  In
github_crawler.py a missing GITHUB_TOKEN raises ValueError inside the outer
try, the except clause prints it, and the interpreter exits with status 0,
not a non-zero signal. -/
theorem C9_counterexample :
    crawlerMain ⟨false, true⟩ = ⟨0, false, false⟩
  ∧ (crawlerMain ⟨false, true⟩).exitCode = 0 := by
  decide

/-- Claim C9, amended.  github_crawler.py exits with status 0 on every path,
setup failures included (they are caught and printed), closing the
connection whenever one was opened; github_to_postgres.py raises its setup
failures uncaught at module level, terminating with the interpreter's
generic status 1 for both failure kinds, non-zero but not distinct per
kind. -/
theorem C9_exit_codes (env : SetupEnv) :
    (crawlerMain env).exitCode = 0
  ∧ ((crawlerMain env).connOpened = true → (crawlerMain env).connClosed = true)
  ∧ ((env.tokenPresent = false ∨ env.dbReachable = false) →
      pgSetupExitCode env = some 1 ∧ (1 : Nat) ≠ 0) := by
  rcases env with ⟨tp, db⟩
  cases tp <;> cases db <;> simp [crawlerMain, pgSetupExitCode]

/-- Witness for C9_exit_codes at a concrete failing setup. -/
theorem C9_exit_codes_witness :
    (crawlerMain ⟨false, true⟩).exitCode = 0
  ∧ pgSetupExitCode ⟨false, true⟩ = some 1 :=
  ⟨(C9_exit_codes ⟨false, true⟩).1,
   ((C9_exit_codes ⟨false, true⟩).2.2 (Or.inl rfl)).1⟩

/-- Claim C10, confirmed.  handle_errors returns normally only with False
for a 200 response or with True for a 403 (after waiting); for every other
status its retry-decrement branch reads the never-assigned local retries and
raises UnboundLocalError, which the retry loop's except clause (catching
only RequestException) does not catch, so the failure escapes the caller. -/
theorem C10_handle_errors_unbound_local (status : Nat) (r : Nat) (body : CrawlerBody)
    (rest : List CrawlerReq) :
    (handle_errors status = Except.ok false ↔ status = 200)
  ∧ (handle_errors status = Except.ok true ↔ status = 403)
  ∧ (status ≠ 200 → status ≠ 403 →
      handle_errors status = Except.error PyException.unboundLocalError
    ∧ catchesNetworkOnly PyException.unboundLocalError = false
    ∧ (crawlerRetry (r + 1) (CrawlerReq.resp status body :: rest)).result
        = RetryResult.uncaught PyException.unboundLocalError) := by
  refine ⟨⟨fun h => ?_, fun h => by subst h; rfl⟩,
    ⟨fun h => ?_, fun h => by subst h; rfl⟩,
    fun h2 h3 => ⟨handle_errors_other status h3 h2, rfl, ?_⟩⟩
  · by_cases hA : status = 403
    · rw [hA, handle_errors_403] at h
      simp at h
    · by_cases hB : status = 200
      · exact hB
      · rw [handle_errors_other status hA hB] at h
        simp at h
  · by_cases hA : status = 403
    · exact hA
    · by_cases hB : status = 200
      · rw [hB, handle_errors_200] at h
        simp at h
      · rw [handle_errors_other status hA hB] at h
        simp at h
  · rw [crawlerRetry_badStatus r status body rest h3 h2]

/-- Witness for C10_handle_errors_unbound_local at status 500. -/
theorem C10_handle_errors_unbound_local_witness :
    handle_errors 500 = Except.error PyException.unboundLocalError
  ∧ catchesNetworkOnly PyException.unboundLocalError = false
  ∧ (crawlerRetry 3 [CrawlerReq.resp 500 CrawlerBody.errors]).result
      = RetryResult.uncaught PyException.unboundLocalError :=
  ⟨((C10_handle_errors_unbound_local 500 2 CrawlerBody.errors []).2.2
      (by decide) (by decide)).1,
   ((C10_handle_errors_unbound_local 500 2 CrawlerBody.errors []).2.2
      (by decide) (by decide)).2.1,
   ((C10_handle_errors_unbound_local 500 2 CrawlerBody.errors []).2.2
      (by decide) (by decide)).2.2⟩
